import Mathlib

set_option maxHeartbeats 1000000

/-!
Verification development for sepa.js (lib/sepa.js).

Modelling conventions:
* JS strings are modelled as `List Char`; `str.substr(n)` is `List.drop n`,
  `str.substr(0, n)` is `List.take n`, `str.slice(0, n)` is `List.take n`,
  and `str.substr(-2, 2)` is dropping all but the last two characters.
* JS numbers used for monetary amounts and control sums are modelled as `Rat`.
* JS `Date` values are modelled by the ISO string they render to, so that
  `date.toISOString()` is the identity and `.substr(0, 10)` is `List.take 10`.
* A missing (`null`/`undefined`) string field is `Option (List Char)` with
  `none`; JS truthiness of a string is "present and non-empty".
-/

/-- Numeric value of a decimal digit character, as JS `parseInt(str[i], 10)`
computes it on the single-character digit strings arising in sepa.js. -/
def digitVal (c : Char) : Nat := c.toNat - 48

/-- The character is an ASCII decimal digit. -/
def isDigitChar (c : Char) : Bool := 48 ≤ c.toNat && c.toNat ≤ 57

/-- The character is ASCII alphanumeric (the character classes kept by
`_replaceChars` in sepa.js). -/
def isAlnumChar (c : Char) : Bool :=
  (65 ≤ c.toNat && c.toNat ≤ 90) || (97 ≤ c.toNat && c.toNat ≤ 122) || isDigitChar c

/-- `_replaceChars` from sepa.js: replace letters by numbers with the SEPA
scheme A=10, B=11, ...; lowercase letters map like uppercase; digits pass
through; every other character is dropped. -/
def replaceChars : List Char → List Char
  | [] => []
  | c :: rest =>
      (if 65 ≤ c.toNat ∧ c.toNat ≤ 90 then (Nat.repr (c.toNat - 55)).data
       else if 97 ≤ c.toNat ∧ c.toNat ≤ 122 then (Nat.repr (c.toNat - 87)).data
       else if 48 ≤ c.toNat ∧ c.toNat ≤ 57 then [c]
       else []) ++ replaceChars rest

/-- `_txtMod97` from sepa.js: streaming mod-97 over a digit string,
`res = (res * 10 + parseInt(str[i], 10)) % 97` left to right from 0. -/
def txtMod97 (str : List Char) : Nat :=
  str.foldl (fun res c => (res * 10 + digitVal c) % 97) 0

/-- The exact integer value of a decimal digit string (the spec's
arbitrary-precision reference for `_txtMod97`): the spec describes
`mod97(digitString)` as "the numeric value of the (arbitrarily long) digit
string modulo 97". -/
def natValOfDigits (str : List Char) : Nat :=
  str.foldl (fun v c => v * 10 + digitVal c) 0

/-- The last two characters of a JS string, `str.substr(-2, 2)`. -/
def lastTwo (l : List Char) : List Char := l.drop (l.length - 2)

/-- `validateIBAN` from sepa.js. -/
def validateIBAN (iban : List Char) : Bool :=
  txtMod97 (replaceChars (iban.drop 4 ++ iban.take 4)) == 1

/-- `checksumIBAN` from sepa.js. -/
def checksumIBAN (iban : List Char) : List Char :=
  let ibrev := iban.drop 4 ++ iban.take 2 ++ ['0', '0']
  let mod := txtMod97 (replaceChars ibrev)
  iban.take 2 ++ lastTwo ('0' :: (Nat.repr (98 - mod)).data) ++ iban.drop 4

/-- `validateCreditorID` from sepa.js. -/
def validateCreditorID (cid : List Char) : Bool :=
  txtMod97 (replaceChars (cid.drop 7 ++ cid.take 4)) == 1

/-- `checksumCreditorID` from sepa.js. -/
def checksumCreditorID (cid : List Char) : List Char :=
  let cidrev := cid.drop 7 ++ cid.take 2 ++ ['0', '0']
  let mod := txtMod97 (replaceChars cidrev)
  cid.take 2 ++ lastTwo ('0' :: (Nat.repr (98 - mod)).data) ++ cid.drop 4

/-! ### Arithmetic facts about the streaming mod-97 fold -/

theorem txtMod97_foldl (s : List Char) : ∀ a : Nat,
    s.foldl (fun res c => (res * 10 + digitVal c) % 97) (a % 97)
      = (s.foldl (fun v c => v * 10 + digitVal c) a) % 97 := by
  induction s with
  | nil => intro a; rfl
  | cons c t ih =>
      intro a
      simp only [List.foldl_cons]
      have h : (a % 97 * 10 + digitVal c) % 97 = (a * 10 + digitVal c) % 97 := by
        omega
      rw [h]
      exact ih (a * 10 + digitVal c)

theorem txtMod97_eq_natVal (s : List Char) : txtMod97 s = natValOfDigits s % 97 := by
  have h := txtMod97_foldl s 0
  simpa [txtMod97, natValOfDigits] using h

theorem txtMod97_lt (s : List Char) : txtMod97 s < 97 := by
  rw [txtMod97_eq_natVal]
  exact Nat.mod_lt _ (by norm_num)

theorem natValOfDigits_foldl (t : List Char) : ∀ a : Nat,
    t.foldl (fun v c => v * 10 + digitVal c) a = a * 10 ^ t.length + natValOfDigits t := by
  induction t with
  | nil => intro a; simp [natValOfDigits]
  | cons c t ih =>
      intro a
      simp only [List.foldl_cons, List.length_cons, natValOfDigits]
      rw [ih (a * 10 + digitVal c), ih (0 * 10 + digitVal c)]
      ring

theorem natValOfDigits_append (s t : List Char) :
    natValOfDigits (s ++ t) = natValOfDigits s * 10 ^ t.length + natValOfDigits t := by
  unfold natValOfDigits
  rw [List.foldl_append]
  exact natValOfDigits_foldl t _

/-! ### Facts about `_replaceChars` -/

theorem replaceChars_append (s t : List Char) :
    replaceChars (s ++ t) = replaceChars s ++ replaceChars t := by
  induction s with
  | nil => rfl
  | cons c s ih => simp [replaceChars, ih, List.append_assoc]

theorem repr_lt_100_digits : ∀ n < 100, ∀ c ∈ (Nat.repr n).data, isDigitChar c = true := by
  decide

theorem replaceChars_all_digits (s : List Char) :
    ∀ c ∈ replaceChars s, isDigitChar c = true := by
  induction s with
  | nil => intro c h; simp [replaceChars] at h
  | cons c s ih =>
      intro x hx
      simp only [replaceChars] at hx
      rcases List.mem_append.1 hx with h | h
      · split at h
        · next hcc => exact repr_lt_100_digits _ (by omega) x h
        · split at h
          · next hcc => exact repr_lt_100_digits _ (by omega) x h
          · split at h
            · next hcc =>
                rcases List.mem_singleton.1 h with rfl
                simp only [isDigitChar, Bool.and_eq_true, decide_eq_true_eq]
                omega
            · simp at h
      · exact ih x h

theorem replaceChars_of_digits (s : List Char) (h : ∀ c ∈ s, isDigitChar c = true) :
    replaceChars s = s := by
  induction s with
  | nil => rfl
  | cons c s ih =>
      have hc := h c (List.mem_cons_self c s)
      have h1 : 48 ≤ c.toNat ∧ c.toNat ≤ 57 := by
        simp only [isDigitChar, Bool.and_eq_true, decide_eq_true_eq] at hc
        exact hc
      have hx : ¬(65 ≤ c.toNat ∧ c.toNat ≤ 90) := by omega
      have hy : ¬(97 ≤ c.toNat ∧ c.toNat ≤ 122) := by omega
      simp only [replaceChars]
      rw [if_neg hx, if_neg hy, if_pos h1,
        ih (fun x hx => h x (List.mem_cons_of_mem c hx))]
      rfl

/-- The padded check digits `('0' + (98 - m)).substr(-2, 2)` computed by
`checksumIBAN`/`checksumCreditorID`: for every possible mod-97 value they are
exactly two decimal digits whose numeric value is `98 - m`. -/
theorem checkDigits_spec : ∀ m < 97,
    (lastTwo ('0' :: (Nat.repr (98 - m)).data)).length = 2 ∧
    (∀ c ∈ lastTwo ('0' :: (Nat.repr (98 - m)).data), isDigitChar c = true) ∧
    natValOfDigits (lastTwo ('0' :: (Nat.repr (98 - m)).data)) = 98 - m := by
  decide

/-- The mod-97 round trip behind `checksumIBAN`/`validateIBAN`: recomputing
the check digits from the rotation `body ++ country ++ "00"` and splicing them
into positions 2-3 always yields a string accepted by `validateIBAN`. -/
theorem validateIBAN_checksumIBAN (c0 c1 x2 x3 : Char) (body : List Char) :
    validateIBAN (checksumIBAN (c0 :: c1 :: x2 :: x3 :: body)) = true := by
  have hcs : checksumIBAN (c0 :: c1 :: x2 :: x3 :: body)
      = [c0, c1]
        ++ lastTwo ('0' :: (Nat.repr (98 -
              txtMod97 (replaceChars (body ++ [c0, c1] ++ ['0', '0'])))).data)
        ++ body := rfl
  set m := txtMod97 (replaceChars (body ++ [c0, c1] ++ ['0', '0'])) with hm
  obtain ⟨hlen, hdig, hval⟩ := checkDigits_spec m (txtMod97_lt _)
  obtain ⟨k1, k2, hk⟩ := List.length_eq_two.mp hlen
  rw [hcs, hk]
  have hlist : ([c0, c1] ++ [k1, k2] ++ body) = c0 :: c1 :: k1 :: k2 :: body := by
    simp
  rw [hlist]
  have hrot : validateIBAN (c0 :: c1 :: k1 :: k2 :: body)
      = (txtMod97 (replaceChars (body ++ [c0, c1, k1, k2])) == 1) := rfl
  rw [hrot]
  have hsplit : body ++ [c0, c1, k1, k2] = (body ++ [c0, c1]) ++ [k1, k2] := by
    simp
  rw [hsplit, replaceChars_append]
  have hk12 : replaceChars [k1, k2] = [k1, k2] :=
    replaceChars_of_digits _ (fun c hc => hdig c (hk ▸ hc))
  rw [hk12]
  simp only [beq_iff_eq]
  rw [txtMod97_eq_natVal, natValOfDigits_append]
  have hv2 : natValOfDigits [k1, k2] = 98 - m := hk ▸ hval
  rw [hv2]
  have hm2 : m = (natValOfDigits (replaceChars (body ++ [c0, c1])) * 100) % 97 := by
    have h00 : replaceChars ['0', '0'] = ['0', '0'] := by decide
    have hz : natValOfDigits ['0', '0'] = 0 := by decide
    have hl2 : (10 : Nat) ^ (List.length (['0', '0'] : List Char)) = 100 := by
      norm_num
    rw [hm, replaceChars_append, h00, txtMod97_eq_natVal, natValOfDigits_append,
      hz, hl2]
    omega
  rw [hm2]
  have h100 : (10 : Nat) ^ (List.length [k1, k2]) = 100 := by norm_num
  rw [h100]
  omega

/-- Claim C1: for every IBAN skeleton with the placeholder check value "00" at
positions 2-3 and an otherwise alphanumeric body,
`validateIBAN (checksumIBAN iban)` returns true; in particular
`checksumIBAN "DE00123456781234567890" = "DE87123456781234567890"` and
`validateIBAN "DE87123456781234567890" = true`. -/
theorem C1_iban_checksum_roundtrip (c0 c1 : Char) (body : List Char)
    (h0 : isAlnumChar c0 = true) (h1 : isAlnumChar c1 = true)
    (hb : ∀ c ∈ body, isAlnumChar c = true) :
    validateIBAN (checksumIBAN (c0 :: c1 :: '0' :: '0' :: body)) = true ∧
    checksumIBAN "DE00123456781234567890".data = "DE87123456781234567890".data ∧
    validateIBAN "DE87123456781234567890".data = true :=
  ⟨validateIBAN_checksumIBAN c0 c1 '0' '0' body, by decide, by decide⟩

/-- Witness for C1 at the concrete skeleton "DE00123456781234567890". -/
theorem C1_iban_checksum_roundtrip_witness :
    validateIBAN (checksumIBAN ('D' :: 'E' :: '0' :: '0' :: "123456781234567890".data))
      = true :=
  (C1_iban_checksum_roundtrip 'D' 'E' "123456781234567890".data
    (by decide) (by decide) (by decide)).1

/-- Claim C2: on every string of decimal digits `_txtMod97` computes the
integer value of the whole digit string modulo 97, and on the 26-digit input
"12345678901234567890123456" it agrees with exact arbitrary-precision
arithmetic. -/
theorem C2_txtMod97_correct (s : List Char) (h : ∀ c ∈ s, isDigitChar c = true) :
    txtMod97 s = natValOfDigits s % 97 ∧
    txtMod97 "12345678901234567890123456".data = 12345678901234567890123456 % 97 :=
  ⟨txtMod97_eq_natVal s, by decide⟩

/-- Witness for C2 at the concrete 26-digit input. -/
theorem C2_txtMod97_correct_witness :
    txtMod97 "12345678901234567890123456".data
      = natValOfDigits "12345678901234567890123456".data % 97 :=
  (C2_txtMod97_correct "12345678901234567890123456".data (by decide)).1

/-- Claim C5: `checksumCreditorID "DE00ZZZ09999999999" = "DE98ZZZ09999999999"`
and `validateCreditorID "DE98ZZZ09999999999" = true`, where the validation
rotation is `id[7:] ++ id[0:4]` while the checksum rotation is
`id[7:] ++ id[0:2] ++ "00"` (the asymmetric 4-vs-2 slices). -/
theorem C5_creditor_id (cid : List Char) :
    checksumCreditorID "DE00ZZZ09999999999".data = "DE98ZZZ09999999999".data ∧
    validateCreditorID "DE98ZZZ09999999999".data = true ∧
    validateCreditorID cid = (txtMod97 (replaceChars (cid.drop 7 ++ cid.take 4)) == 1) ∧
    checksumCreditorID cid
      = cid.take 2
        ++ lastTwo ('0' :: (Nat.repr (98 -
              txtMod97 (replaceChars (cid.drop 7 ++ cid.take 2 ++ ['0', '0'])))).data)
        ++ cid.drop 4 :=
  ⟨by decide, by decide, rfl, rfl⟩

/-! ### The entity model of sepa.js

`SepaTransaction._type` and `SepaPaymentInfo.method` hold one of the two
values of `TransactionTypes` / `PaymentInfoTypes` from sepa.js (the
constructors are the only code assigning them), so they are modelled as
two-constructor enumerations carrying their JS string value. -/

/-- The module-level `ID_SEPARATOR` of sepa.js, at its default value `'.'`
(`setIDSeparator` can mutate it; all claims use the default). -/
def ID_SEPARATOR : List Char := ['.']

/-- `PaymentInfoTypes` from sepa.js. -/
inductive PaymentInfoTypes where
  | DirectDebit
  | Transfer
deriving DecidableEq

/-- The JS string value of a `PaymentInfoTypes` member. -/
def PaymentInfoTypes.code : PaymentInfoTypes → List Char
  | .DirectDebit => "DD".data
  | .Transfer => "TRF".data

/-- `TransactionTypes` from sepa.js. -/
inductive TransactionTypes where
  | DirectDebit
  | Transfer
deriving DecidableEq

/-- The JS string value of a `TransactionTypes` member (the element tag). -/
def TransactionTypes.tag : TransactionTypes → List Char
  | .DirectDebit => "DrctDbtTxInf".data
  | .Transfer => "CdtTrfTxInf".data

/-- `SepaTransaction` state: the prototype fields of sepa.js. -/
structure SepaTransaction where
  _painFormat : List Char
  _type : TransactionTypes
  id : List Char
  end2endId : List Char
  currency : List Char
  amount : Rat
  purposeCode : Option (List Char)
  mandateId : List Char
  mandateSignatureDate : List Char
  debtorName : List Char
  debtorStreet : Option (List Char)
  debtorCity : Option (List Char)
  debtorCountry : Option (List Char)
  debtorIBAN : List Char
  debtorBIC : List Char
  remittanceInfo : List Char
  creditorName : List Char
  creditorStreet : Option (List Char)
  creditorCity : Option (List Char)
  creditorCountry : Option (List Char)
  creditorIBAN : List Char
  creditorBIC : List Char
  ammendment : Option (List Char)

/-- The `SepaTransaction` constructor together with the prototype defaults. -/
def SepaTransaction.create (painFormat : List Char) : SepaTransaction where
  _painFormat := painFormat
  _type := if painFormat.take 8 = "pain.001".data then .Transfer else .DirectDebit
  id := []
  end2endId := []
  currency := "EUR".data
  amount := 0
  purposeCode := none
  mandateId := []
  mandateSignatureDate := []
  debtorName := []
  debtorStreet := none
  debtorCity := none
  debtorCountry := none
  debtorIBAN := []
  debtorBIC := []
  remittanceInfo := []
  creditorName := []
  creditorStreet := none
  creditorCity := none
  creditorCountry := none
  creditorIBAN := []
  creditorBIC := []
  ammendment := none

/-- `SepaPaymentInfo` state: the prototype fields of sepa.js. -/
structure SepaPaymentInfo where
  _painFormat : List Char
  _payments : List SepaTransaction
  id : List Char
  method : PaymentInfoTypes
  batchBooking : Bool
  grouping : List Char
  controlSum : Rat
  localInstrumentation : Option (List Char)
  sequenceType : List Char
  collectionDate : List Char
  requestedExecutionDate : List Char
  creditorId : List Char
  creditorName : List Char
  creditorStreet : Option (List Char)
  creditorCity : Option (List Char)
  creditorCountry : Option (List Char)
  creditorIBAN : List Char
  creditorBIC : List Char
  debtorId : List Char
  debtorName : List Char
  debtorStreet : Option (List Char)
  debtorCity : Option (List Char)
  debtorCountry : Option (List Char)
  debtorIBAN : List Char
  debtorBIC : List Char
  instructionPriority : List Char

/-- The `SepaPaymentInfo` constructor together with the prototype defaults. -/
def SepaPaymentInfo.create (painFormat : List Char) : SepaPaymentInfo where
  _painFormat := painFormat
  _payments := []
  id := []
  method :=
    if painFormat.take 8 = "pain.001".data then .Transfer else .DirectDebit
  batchBooking := false
  grouping := "MIXD".data
  controlSum := 0
  localInstrumentation := none
  sequenceType := "FRST".data
  collectionDate := []
  requestedExecutionDate := []
  creditorId := []
  creditorName := []
  creditorStreet := none
  creditorCity := none
  creditorCountry := none
  creditorIBAN := []
  creditorBIC := []
  debtorId := []
  debtorName := []
  debtorStreet := none
  debtorCity := none
  debtorCountry := none
  debtorIBAN := []
  debtorBIC := []
  instructionPriority := "NORM".data

/-- The `transactionCount` getter of `SepaPaymentInfo`. -/
def SepaPaymentInfo.transactionCount (p : SepaPaymentInfo) : Nat :=
  p._payments.length

/-- `SepaPaymentInfo.prototype.normalize`: recompute the control sum from the
transaction amounts. -/
def SepaPaymentInfo.normalize (p : SepaPaymentInfo) : SepaPaymentInfo :=
  { p with controlSum := p._payments.foldl (fun s t => s + t.amount) 0 }

/-- `SepaPaymentInfo.prototype.addTransaction`: the transaction id becomes the
supplied id, or the payment-info id plus separator plus index when the
supplied id is falsy, truncated with `.slice(0, 35)`. -/
def SepaPaymentInfo.addTransaction (p : SepaPaymentInfo) (pmt : SepaTransaction) :
    SepaPaymentInfo :=
  let pmt' := { pmt with
    id := (if pmt.id.isEmpty then
             p.id ++ ID_SEPARATOR ++ (Nat.repr p._payments.length).data
           else pmt.id).take 35 }
  { p with _payments := p._payments ++ [pmt'] }

/-- `SepaGroupHeader` state: the prototype fields of sepa.js. -/
structure SepaGroupHeader where
  _painFormat : List Char
  id : List Char
  created : List Char
  transactionCount : Nat
  initiatorName : List Char
  controlSum : Rat
  batchBooking : Bool
  grouping : List Char

/-- Options passed to the `SepaDocument` constructor. -/
structure SepaDocumentOptions where
  painFormat : Option (List Char)
  id : List Char
  created : List Char
  initiatorName : List Char

/-- The `SepaGroupHeader` constructor (called with the options whose
`painFormat` the `SepaDocument` constructor has already defaulted) together
with the prototype defaults. -/
def SepaGroupHeader.create (o : SepaDocumentOptions) (pf : List Char) :
    SepaGroupHeader where
  _painFormat := pf
  id := o.id
  created := o.created
  transactionCount := 0
  initiatorName := o.initiatorName
  controlSum := 0
  batchBooking := false
  grouping := "MIXD".data

/-- `SEPATypes` from sepa.js: the registry of recognized format identifiers. -/
def SEPATypes (f : List Char) : Option (List Char) :=
  if f = "pain.001.001.02".data then some "pain.001.001.02".data
  else if f = "pain.001.003.02".data then some "pain.001.003.02".data
  else if f = "pain.001.001.03".data then some "CstmrCdtTrfInitn".data
  else if f = "pain.001.002.03".data then some "CstmrCdtTrfInitn".data
  else if f = "pain.001.003.03".data then some "CstmrCdtTrfInitn".data
  else if f = "pain.008.001.01".data then some "pain.008.001.01".data
  else if f = "pain.008.003.01".data then some "pain.008.003.01".data
  else if f = "pain.008.001.02".data then some "CstmrDrctDbtInitn".data
  else if f = "pain.008.003.02".data then some "CstmrDrctDbtInitn".data
  else none

/-- `getPainXMLVersion` from sepa.js: parse the last two characters of the
format identifier, plus 1 when the identifier starts with "pain.008". -/
def getPainXMLVersion (painFormat : List Char) : Nat :=
  (if painFormat.take 8 = "pain.008".data then 1 else 0)
    + natValOfDigits (painFormat.drop (painFormat.length - 2))

/-- `SepaDocument` state. -/
structure SepaDocument where
  _painFormat : List Char
  _type : Option (List Char)
  _paymentInfo : List SepaPaymentInfo
  grpHdr : SepaGroupHeader

/-- The `SepaDocument` constructor: default the format with
`options.painFormat || 'pain.008.001.02'` (a falsy — absent or empty — value
picks the default), look the type up in `SEPATypes` (an unknown format yields
no type and no error), and build the group header. -/
def SepaDocument.create (o : SepaDocumentOptions) : SepaDocument :=
  let pf := match o.painFormat with
    | some s => if s.isEmpty then "pain.008.001.02".data else s
    | none => "pain.008.001.02".data
  { _painFormat := pf
    _type := SEPATypes pf
    _paymentInfo := []
    grpHdr := SepaGroupHeader.create o pf }

/-- `SepaDocument.prototype.addPaymentInfo`: the payment-info id becomes the
group-header id plus separator plus the explicit id, or plus the insertion
index when the explicit id is falsy (no length truncation happens here). -/
def SepaDocument.addPaymentInfo (d : SepaDocument) (p : SepaPaymentInfo) :
    SepaDocument :=
  let p' := { p with
    id := if p.id.isEmpty then
            d.grpHdr.id ++ ID_SEPARATOR ++ (Nat.repr d._paymentInfo.length).data
          else
            d.grpHdr.id ++ ID_SEPARATOR ++ p.id }
  { d with _paymentInfo := d._paymentInfo ++ [p'] }

/-- `SepaDocument.prototype.normalize`: normalize every payment info, then
store the summed control sums and transaction counts in the group header. -/
def SepaDocument.normalize (d : SepaDocument) : SepaDocument :=
  let pis := d._paymentInfo.map SepaPaymentInfo.normalize
  { d with
    _paymentInfo := pis
    grpHdr := { d.grpHdr with
      controlSum := pis.foldl (fun s p => s + p.controlSum) 0
      transactionCount := pis.foldl (fun s p => s + p.transactionCount) 0 } }

/-! ### Normalization and id assignment -/

theorem piNormalize_idem (p : SepaPaymentInfo) :
    p.normalize.normalize = p.normalize := rfl

theorem docNormalize_idem (d : SepaDocument) :
    d.normalize.normalize = d.normalize := by
  simp only [SepaDocument.normalize, List.map_map]
  have h : SepaPaymentInfo.normalize ∘ SepaPaymentInfo.normalize
      = SepaPaymentInfo.normalize :=
    funext fun p => piNormalize_idem p
  rw [h]

/-- The concrete document of claim C3: one batch holding two transactions of
amounts 10.00 and 5.50, built through the sepa.js constructors. -/
def exampleDocC3 : SepaDocument :=
  let fmt := "pain.008.001.02".data
  let t1 := { SepaTransaction.create fmt with amount := 10 }
  let t2 := { SepaTransaction.create fmt with amount := (11 : Rat) / 2 }
  let p := ((SepaPaymentInfo.create fmt).addTransaction t1).addTransaction t2
  (SepaDocument.create
    { painFormat := none, id := "MSG1".data, created := [], initiatorName := [] }
    ).addPaymentInfo p

/-- Claim C3: with unchanged batches and transactions, a second `normalize()`
produces the same header control sum and transaction count as the first; on a
document with one batch of amounts 10.00 and 5.50 the header control sum is
15.50 and the transaction count 2, unchanged by a second `normalize()`. -/
theorem C3_normalize_idempotent (d : SepaDocument) :
    d.normalize.normalize.grpHdr.controlSum = d.normalize.grpHdr.controlSum ∧
    d.normalize.normalize.grpHdr.transactionCount
      = d.normalize.grpHdr.transactionCount ∧
    exampleDocC3.normalize.grpHdr.controlSum = 31 / 2 ∧
    exampleDocC3.normalize.grpHdr.transactionCount = 2 ∧
    exampleDocC3.normalize.normalize.grpHdr.controlSum = 31 / 2 ∧
    exampleDocC3.normalize.normalize.grpHdr.transactionCount = 2 := by
  have hcs : exampleDocC3.normalize.grpHdr.controlSum = 31 / 2 := by
    norm_num [exampleDocC3, SepaDocument.create, SepaGroupHeader.create,
      SepaPaymentInfo.create, SepaTransaction.create, SepaDocument.addPaymentInfo,
      SepaPaymentInfo.addTransaction, SepaDocument.normalize,
      SepaPaymentInfo.normalize, SepaPaymentInfo.transactionCount]
  have htc : exampleDocC3.normalize.grpHdr.transactionCount = 2 := by
    norm_num [exampleDocC3, SepaDocument.create, SepaGroupHeader.create,
      SepaPaymentInfo.create, SepaTransaction.create, SepaDocument.addPaymentInfo,
      SepaPaymentInfo.addTransaction, SepaDocument.normalize,
      SepaPaymentInfo.normalize, SepaPaymentInfo.transactionCount]
  exact ⟨by rw [docNormalize_idem], by rw [docNormalize_idem],
    hcs, htc, by rw [docNormalize_idem]; exact hcs,
    by rw [docNormalize_idem]; exact htc⟩

/-- The document of the C9 counterexample: its group-header id is already 35
characters long, so the id assigned to the first batch has 37 characters. -/
def longIdDocC9 : SepaDocument :=
  SepaDocument.create
    { painFormat := none, id := List.replicate 35 'A', created := [],
      initiatorName := [] }

/-- Counterexample to claim C9 as stated: `addPaymentInfo` performs no
35-character truncation, so the batch id assigned under a 35-character header
id is 37 characters long. -/
theorem C9_id_assignment_counterexample :
    ¬ (((longIdDocC9.addPaymentInfo
          (SepaPaymentInfo.create "pain.008.001.02".data))._paymentInfo.headD
            (SepaPaymentInfo.create [])).id.length ≤ 35) := by
  decide

/-- The document of the concrete C9 example, with header id "MSG1". -/
def msg1DocC9 : SepaDocument :=
  SepaDocument.create
    { painFormat := none, id := "MSG1".data, created := [], initiatorName := [] }

/-- Claim C9 (amended): the id assigned by `addPaymentInfo` equals the header
id, then the separator, then the batch's explicit id or its insertion index —
with no length truncation at batch level; concretely, the first batch of a
document with header id "MSG1" gets id "MSG1.0" and a transaction added to it
without an explicit id gets id "MSG1.0.0". -/
theorem C9_id_assignment (d : SepaDocument) (p : SepaPaymentInfo) :
    (d.addPaymentInfo p)._paymentInfo
      = d._paymentInfo ++ [{ p with id := d.grpHdr.id ++ ID_SEPARATOR ++
          (if p.id.isEmpty then (Nat.repr d._paymentInfo.length).data
           else p.id) }] ∧
    ((msg1DocC9.addPaymentInfo
        (SepaPaymentInfo.create "pain.008.001.02".data))._paymentInfo.headD
          (SepaPaymentInfo.create [])).id = "MSG1.0".data ∧
    ((((msg1DocC9.addPaymentInfo
          (SepaPaymentInfo.create "pain.008.001.02".data))._paymentInfo.headD
            (SepaPaymentInfo.create [])).addTransaction
        (SepaTransaction.create "pain.008.001.02".data))._payments.headD
          (SepaTransaction.create [])).id = "MSG1.0.0".data := by
  refine ⟨?_, by decide, by decide⟩
  cases h : p.id.isEmpty <;> simp [SepaDocument.addPaymentInfo, h]

/-- Claim C10: when `addTransaction` receives a transaction whose id is a
non-empty string, the stored id is exactly the first 35 characters of that id
— the batch prefix is not prepended, and a longer id is silently truncated. -/
theorem C10_explicit_transaction_id (p : SepaPaymentInfo) (pmt : SepaTransaction)
    (h : pmt.id ≠ []) :
    (p.addTransaction pmt)._payments
      = p._payments ++ [{ pmt with id := pmt.id.take 35 }] := by
  have h' : pmt.id.isEmpty = false := by
    cases hi : pmt.id with
    | nil => exact absurd hi h
    | cons a l => rfl
  simp [SepaPaymentInfo.addTransaction, h']

/-- The transaction of the C10 witness: an explicit 40-character id. -/
def txLongIdC10 : SepaTransaction :=
  { SepaTransaction.create "pain.008.001.02".data with id := List.replicate 40 'X' }

/-- Witness for C10 at a 40-character explicit id. -/
theorem C10_explicit_transaction_id_witness :
    ((SepaPaymentInfo.create "pain.008.001.02".data).addTransaction
        txLongIdC10)._payments
      = (SepaPaymentInfo.create "pain.008.001.02".data)._payments
        ++ [{ txLongIdC10 with id := txLongIdC10.id.take 35 }] :=
  C10_explicit_transaction_id _ txLongIdC10 (by decide)

/-! ### The XML tree built by serialization

The external DOM facility is modelled by a plain tree: an element carries its
tag, its attributes (namespace, name, value) and its children in document
order; `textContent` set on a leaf element is a text child. -/

/-- A DOM node as produced by the sepa.js serialization. -/
inductive Node where
  | elem (tag : List Char)
      (attrs : List (Option (List Char) × List Char × List Char))
      (kids : List Node)
  | text (s : List Char)

/-- Tag of an element node (text nodes have no tag). -/
def Node.tagName : Node → List Char
  | .elem t _ _ => t
  | .text _ => []

/-- Children of a node. -/
def Node.kids : Node → List Node
  | .elem _ _ k => k
  | .text _ => []

/-- Attributes of a node. -/
def Node.attrs : Node → List (Option (List Char) × List Char × List Char)
  | .elem _ a _ => a
  | .text _ => []

/-- An element with a text value, as built by the sepa.js `r` helper. -/
def leaf (tag v : List Char) : Node := .elem tag [] [.text v]

/-- The node has a direct child element with the given tag. -/
def hasChildNamed (nm : List Char) (n : Node) : Bool :=
  n.kids.any fun k => k.tagName == nm

/-- The first direct child element with the given tag (a text placeholder
when there is none). -/
def childNamed (nm : List Char) (n : Node) : Node :=
  (n.kids.filter fun k => k.tagName == nm).headD (.text [])

/-- The text content of a leaf element. -/
def textOf (n : Node) : List Char :=
  match n.kids with
  | .text s :: _ => s
  | _ => []

/-- The value of the attribute with the given namespace and name. -/
def attrValue (ns : Option (List Char)) (nm : List Char) (n : Node) : List Char :=
  ((n.attrs.filter fun a => a.1 == ns && a.2.1 == nm).headD
    ((none : Option (List Char)), ([] : List Char), ([] : List Char))).2.2

/-- JS `Boolean.prototype.toString`. -/
def boolToString : Bool → List Char
  | true => "true".data
  | false => "false".data

/-- JS `Number.prototype.toFixed(2)` on the rational model of an amount
(round to nearest with halves up, then print with two fractional digits). -/
def toFixed2 (q : Rat) : List Char :=
  let n : Int := Rat.floor (q * 100 + 1 / 2)
  let m : Nat := n.natAbs
  (if n < 0 then ['-'] else []) ++ (Nat.repr (m / 100)).data ++ ['.']
    ++ (if m % 100 < 10 then ['0'] else []) ++ (Nat.repr (m % 100)).data

/-- JS truthiness of a possibly missing string field. -/
def truthy : Option (List Char) → Bool
  | none => false
  | some s => !s.isEmpty

/-- The string read from a possibly missing field when it is emitted. -/
def optVal : Option (List Char) → List Char
  | none => []
  | some s => s

/-- The `XSI_NAMESPACE` constant of sepa.js. -/
def XSI_NAMESPACE : List Char := "http://www.w3.org/2001/XMLSchema-instance".data

/-- The `XSI_NS` constant of sepa.js. -/
def XSI_NS : List Char := "urn:iso:std:iso:20022:tech:xsd:".data

/-- `SepaGroupHeader.prototype.toXML`. -/
def SepaGroupHeader.toXML (h : SepaGroupHeader) : Node :=
  let painVersion := getPainXMLVersion h._painFormat
  Node.elem "GrpHdr".data []
    ([leaf "MsgId".data h.id, leaf "CreDtTm".data h.created]
     ++ (if painVersion = 2 then
          [leaf "BtchBookg".data (boolToString h.batchBooking)]
         else [])
     ++ [leaf "NbOfTxs".data (Nat.repr h.transactionCount).data,
         leaf "CtrlSum".data (toFixed2 h.controlSum)]
     ++ (if painVersion = 2 then [leaf "Grpg".data h.grouping] else [])
     ++ [Node.elem "InitgPty".data [] [leaf "Nm".data h.initiatorName]])

/-- `SepaTransaction.prototype.toXML`. The postal-address block keeps the
source verbatim: the guard tests the `pullFrom` (counterparty) fields while
the emitted `Ctry`/`AdrLine` values read `this.debtorCountry`,
`this.debtorStreet`, `this.debtorCity`. -/
def SepaTransaction.toXML (t : SepaTransaction) : Node :=
  let receiverNodeName :=
    if t._type = TransactionTypes.Transfer then "Cdtr".data else "Dbtr".data
  let painVersion := getPainXMLVersion t._painFormat
  let pName := if t._type = TransactionTypes.Transfer then t.creditorName else t.debtorName
  let pStreet := if t._type = TransactionTypes.Transfer then t.creditorStreet else t.debtorStreet
  let pCity := if t._type = TransactionTypes.Transfer then t.creditorCity else t.debtorCity
  let pCountry := if t._type = TransactionTypes.Transfer then t.creditorCountry else t.debtorCountry
  let pIBAN := if t._type = TransactionTypes.Transfer then t.creditorIBAN else t.debtorIBAN
  let pBIC := if t._type = TransactionTypes.Transfer then t.creditorBIC else t.debtorBIC
  Node.elem t._type.tag []
    ([Node.elem "PmtId".data []
        [leaf "InstrId".data t.id, leaf "EndToEndId".data t.end2endId]]
     ++ (if t._type = TransactionTypes.DirectDebit then
          [Node.elem "InstdAmt".data [(none, "Ccy".data, t.currency)]
             [Node.text (toFixed2 t.amount)],
           Node.elem "DrctDbtTx".data []
             [Node.elem "MndtRltdInf".data []
               ([leaf "MndtId".data t.mandateId,
                 leaf "DtOfSgntr".data (t.mandateSignatureDate.take 10)]
                ++ (if truthy t.ammendment then
                      [leaf "AmdmntInd".data "true".data,
                       leaf "AmdmnInfDtls".data (optVal t.ammendment)]
                    else [leaf "AmdmntInd".data "false".data]))]]
        else
          [Node.elem "Amt".data []
            [Node.elem "InstdAmt".data [(none, "Ccy".data, t.currency)]
              [Node.text (toFixed2 t.amount)]]])
     ++ [(if pBIC.isEmpty then
            Node.elem (receiverNodeName ++ "Agt".data) []
              [Node.elem "FinInstnId".data []
                [Node.elem "Othr".data [] [leaf "Id".data "NOTPROVIDED".data]]]
          else
            Node.elem (receiverNodeName ++ "Agt".data) []
              [Node.elem "FinInstnId".data [] [leaf "BIC".data pBIC]])]
     ++ [Node.elem receiverNodeName []
          ([leaf "Nm".data pName]
           ++ (if truthy pStreet && truthy pCity && truthy pCountry then
                 [Node.elem "PstlAdr".data []
                   [leaf "Ctry".data (optVal t.debtorCountry),
                    leaf "AdrLine".data (optVal t.debtorStreet),
                    leaf "AdrLine".data (optVal t.debtorCity)]]
               else []))]
     ++ [Node.elem (receiverNodeName ++ "Acct".data) []
          [Node.elem "Id".data [] [leaf "IBAN".data pIBAN]]]
     ++ [Node.elem "RmtInf".data [] [leaf "Ustrd".data t.remittanceInfo]]
     ++ (if painVersion ≠ 3 then
          (if truthy t.purposeCode then
             [Node.elem "Purp".data [] [leaf "Cd".data (optVal t.purposeCode)]]
           else [])
         else []))

/-- `SepaPaymentInfo.prototype.toXML`. -/
def SepaPaymentInfo.toXML (p : SepaPaymentInfo) : Node :=
  let painVersion := getPainXMLVersion p._painFormat
  let dd := p.method = PaymentInfoTypes.DirectDebit
  let emitterNodeName := if dd then "Cdtr".data else "Dbtr".data
  let pName := if dd then p.creditorName else p.debtorName
  let pStreet := if dd then p.creditorStreet else p.debtorStreet
  let pCity := if dd then p.creditorCity else p.debtorCity
  let pCountry := if dd then p.creditorCountry else p.debtorCountry
  let pIBAN := if dd then p.creditorIBAN else p.debtorIBAN
  let pBIC := if dd then p.creditorBIC else p.debtorBIC
  let agentName := if painVersion = 3 then "Agt".data else "Agnt".data
  Node.elem "PmtInf".data []
    ([leaf "PmtInfId".data p.id, leaf "PmtMtd".data p.method.code]
     ++ (if painVersion = 3 then
          [leaf "BtchBookg".data (boolToString p.batchBooking),
           leaf "NbOfTxs".data (Nat.repr p.transactionCount).data,
           leaf "CtrlSum".data (toFixed2 p.controlSum)]
         else [])
     ++ [Node.elem "PmtTpInf".data []
          ([Node.elem "SvcLvl".data [] [leaf "Cd".data "SEPA".data]]
           ++ (if truthy p.localInstrumentation then
                 [Node.elem "LclInstrm".data []
                   [leaf "Cd".data (optVal p.localInstrumentation)]]
               else [])
           ++ (if dd then [leaf "SeqTp".data p.sequenceType] else []))]
     ++ (if dd then [leaf "ReqdColltnDt".data (p.collectionDate.take 10)]
         else [leaf "ReqdExctnDt".data (p.requestedExecutionDate.take 10)])
     ++ [Node.elem emitterNodeName []
          ([leaf "Nm".data pName]
           ++ (if truthy pStreet && truthy pCity && truthy pCountry then
                 [Node.elem "PstlAdr".data []
                   [leaf "Ctry".data (optVal pCountry),
                    leaf "AdrLine".data (optVal pStreet),
                    leaf "AdrLine".data (optVal pCity)]]
               else []))]
     ++ [Node.elem (emitterNodeName ++ "Acct".data) []
          [Node.elem "Id".data [] [leaf "IBAN".data pIBAN]]]
     ++ [(if pBIC.isEmpty then
            Node.elem (emitterNodeName ++ agentName) []
              [Node.elem "FinInstnId".data []
                [Node.elem "Othr".data [] [leaf "Id".data "NOTPROVIDED".data]]]
          else
            Node.elem (emitterNodeName ++ agentName) []
              [Node.elem "FinInstnId".data [] [leaf "BIC".data pBIC]])]
     ++ [leaf "ChrgBr".data "SLEV".data]
     ++ (if dd then
          [Node.elem "CdtrSchmeId".data []
            [Node.elem "Id".data []
              [Node.elem "PrvtId".data []
                [Node.elem "Othr".data []
                  [leaf "Id".data p.creditorId,
                   Node.elem "SchmeNm".data [] [leaf "Prtry".data "SEPA".data]]]]]]
         else [])
     ++ p._payments.map SepaTransaction.toXML)

/-- `SepaDocument.prototype.toXML`: normalize, then build the namespaced
`Document` root (with the `xsi:schemaLocation` attribute) wrapping the inner
root element named by `_type`; an unknown format left `_type` undefined and
the DOM coerces the undefined tag to the string "undefined". -/
def SepaDocument.toXML (d0 : SepaDocument) : Node :=
  let d := d0.normalize
  let docNS := XSI_NS ++ d._painFormat
  Node.elem "Document".data
    [(none, "xmlns".data, docNS),
     (some XSI_NAMESPACE, "xsi:schemaLocation".data,
       XSI_NS ++ d._painFormat ++ [' '] ++ d._painFormat ++ ".xsd".data)]
    [Node.elem (d._type.getD "undefined".data) []
      (SepaGroupHeader.toXML d.grpHdr
        :: d._paymentInfo.map SepaPaymentInfo.toXML)]

/-- The inner root element of a serialized document. -/
def serializedInner (d : SepaDocument) : Node :=
  (d.toXML).kids.headD (.text [])

/-- The `GrpHdr` element of a serialized document. -/
def serializedHeader (d : SepaDocument) : Node :=
  (serializedInner d).kids.headD (.text [])

/-- The `PmtInf` elements of a serialized document. -/
def serializedBatches (d : SepaDocument) : List Node :=
  (serializedInner d).kids.tail

/-! ### Unknown formats, the schemaLocation attribute, transaction addresses -/

/-- A document constructed with the unrecognized format "pain.999.999.99". -/
def docC6 : SepaDocument :=
  SepaDocument.create
    { painFormat := some "pain.999.999.99".data, id := [], created := [],
      initiatorName := [] }

/-- Counterexample to claim C6 as stated: constructing a document with the
unrecognized format "pain.999.999.99" does not fail — the constructor returns
a document whose `_type` is undefined — and serializing it does not fail
either: it returns the `Document` root, whose inner root tag is the DOM
coercion of the undefined type. No `UnknownFormat` error exists in sepa.js. -/
theorem C6_unknown_format_counterexample :
    SEPATypes "pain.999.999.99".data = none ∧
    docC6._type = none ∧
    (docC6.toXML).tagName = "Document".data ∧
    (serializedInner docC6).tagName = "undefined".data := by
  refine ⟨by decide, by decide, rfl, by decide⟩

/-- Claim C6 (amended): for every non-empty format identifier outside the
registry, `SEPATypes` resolves to nothing, yet document construction succeeds
with an undefined `_type` and serialization still succeeds, producing the
`Document` root whose inner root tag is the coerced undefined type — no
`UnknownFormat` failure occurs anywhere in sepa.js. -/
theorem C6_unknown_format (f : List Char) (hne : f ≠ [])
    (h : SEPATypes f = none) :
    (SepaDocument.create
      { painFormat := some f, id := [], created := [], initiatorName := [] })._type
        = none ∧
    ((SepaDocument.create
      { painFormat := some f, id := [], created := [], initiatorName := [] }).toXML).tagName
        = "Document".data ∧
    (serializedInner (SepaDocument.create
      { painFormat := some f, id := [], created := [], initiatorName := [] })).tagName
        = "undefined".data := by
  have hfe : f.isEmpty = false := by
    cases hi : f with
    | nil => exact absurd hi hne
    | cons a l => rfl
  refine ⟨?_, rfl, ?_⟩
  · simp [SepaDocument.create, hfe, h]
  · simp [serializedInner, SepaDocument.toXML, SepaDocument.create,
      SepaDocument.normalize, SepaGroupHeader.create, hfe, h,
      Node.kids, Node.tagName]

/-- Witness for C6 at the unrecognized format "pain.999.999.99". -/
theorem C6_unknown_format_witness :
    (SepaDocument.create
      { painFormat := some "pain.999.999.99".data, id := [], created := [],
        initiatorName := [] })._type = none ∧
    ((SepaDocument.create
      { painFormat := some "pain.999.999.99".data, id := [], created := [],
        initiatorName := [] }).toXML).tagName = "Document".data ∧
    (serializedInner (SepaDocument.create
      { painFormat := some "pain.999.999.99".data, id := [], created := [],
        initiatorName := [] })).tagName = "undefined".data :=
  C6_unknown_format "pain.999.999.99".data (by decide) (by decide)

/-- A document with the recognized format "pain.001.001.03", for C7. -/
def docC7 : SepaDocument :=
  SepaDocument.create
    { painFormat := some "pain.001.001.03".data, id := "MSG1".data,
      created := [], initiatorName := [] }

/-- Counterexample to claim C7 as stated: the emitted `xsi:schemaLocation`
value contains the base namespace once, not twice — it is
`"<base-ns><f> <f>.xsd"` and differs from the claim's literal template
`"<base-ns> <f> <base-ns><f>.xsd"`. -/
theorem C7_schema_location_counterexample :
    attrValue (some XSI_NAMESPACE) "xsi:schemaLocation".data docC7.toXML
      = "urn:iso:std:iso:20022:tech:xsd:pain.001.001.03 pain.001.001.03.xsd".data ∧
    attrValue (some XSI_NAMESPACE) "xsi:schemaLocation".data docC7.toXML
      ≠ ("urn:iso:std:iso:20022:tech:xsd: pain.001.001.03 "
          ++ "urn:iso:std:iso:20022:tech:xsd:pain.001.001.03.xsd").data := by
  refine ⟨by decide, by decide⟩

/-- Claim C7 (amended): serialization sets on the root, in the
XML-Schema-instance namespace, a `xsi:schemaLocation` attribute whose value is
`"<base-ns><f> <f>.xsd"` with base-ns `urn:iso:std:iso:20022:tech:xsd:` — the
format identifier occurs twice (namespace part and schema file name), both
occurrences matching the document's format exactly; the base namespace occurs
once. -/
theorem C7_schema_location (d : SepaDocument) :
    attrValue (some XSI_NAMESPACE) "xsi:schemaLocation".data d.toXML
      = XSI_NS ++ d._painFormat ++ [' '] ++ d._painFormat ++ ".xsd".data := by
  simp [SepaDocument.toXML, SepaDocument.normalize, attrValue, Node.attrs]

/-- The failing transaction of claim C8: a credit transfer whose creditor and
debtor both carry complete but different postal addresses. -/
def txC8 : SepaTransaction :=
  { SepaTransaction.create "pain.001.001.03".data with
      creditorStreet := some "Creditor Street".data
      creditorCity := some "Creditor City".data
      creditorCountry := some "FR".data
      debtorStreet := some "Debtor Street".data
      debtorCity := some "Debtor City".data
      debtorCountry := some "DE".data }

/-- Claim C8 fails on the code: for a credit transfer the postal-address guard
checks the creditor's street/city/country, but the emitted `Ctry`/`AdrLine`
values are read from the debtor fields, so the address block under `Cdtr`
carries the debtor's country and street instead of the creditor's. -/
theorem C8_transfer_address_divergence :
    txC8._type = TransactionTypes.Transfer ∧
    hasChildNamed "PstlAdr".data (childNamed "Cdtr".data txC8.toXML) = true ∧
    textOf (childNamed "Ctry".data
        (childNamed "PstlAdr".data (childNamed "Cdtr".data txC8.toXML)))
      = "DE".data ∧
    textOf (childNamed "AdrLine".data
        (childNamed "PstlAdr".data (childNamed "Cdtr".data txC8.toXML)))
      = "Debtor Street".data ∧
    optVal txC8.creditorCountry = "FR".data ∧
    optVal txC8.creditorStreet = "Creditor Street".data := by
  refine ⟨by decide, by decide, by decide, by decide, by decide, by decide⟩

/-! ### Version-family branching of the serialized tree (claim C4) -/

theorem hasChildNamed_eq_false (nm : List Char) (n : Node)
    (h : ∀ k ∈ n.kids, k.tagName ≠ nm) : hasChildNamed nm n = false := by
  simp only [hasChildNamed, List.any_eq_false]
  intro k hk
  simpa using h k hk

theorem grpHdr_v3_no_batch_nodes (h : SepaGroupHeader)
    (hv : getPainXMLVersion h._painFormat = 3) :
    hasChildNamed "BtchBookg".data h.toXML = false ∧
    hasChildNamed "Grpg".data h.toXML = false := by
  constructor <;>
  · apply hasChildNamed_eq_false
    intro k hk
    simp [SepaGroupHeader.toXML, hv, Node.kids] at hk
    rcases hk with rfl | rfl | rfl | rfl | rfl <;>
      simp only [leaf, Node.tagName] <;> decide

theorem grpHdr_v2_batch_nodes (h : SepaGroupHeader)
    (hv : getPainXMLVersion h._painFormat = 2) :
    hasChildNamed "BtchBookg".data h.toXML = true ∧
    hasChildNamed "Grpg".data h.toXML = true := by
  constructor <;>
  · simp [SepaGroupHeader.toXML, hv, hasChildNamed, Node.kids, leaf,
      Node.tagName]

theorem pmtInf_v3_batch_nodes (p : SepaPaymentInfo)
    (hv : getPainXMLVersion p._painFormat = 3) :
    hasChildNamed "BtchBookg".data p.toXML = true ∧
    hasChildNamed "NbOfTxs".data p.toXML = true ∧
    hasChildNamed "CtrlSum".data p.toXML = true := by
  refine ⟨?_, ?_, ?_⟩ <;>
  · simp [SepaPaymentInfo.toXML, hv, hasChildNamed, Node.kids, leaf,
      Node.tagName]

theorem SepaTransaction.toXML_tagName (t : SepaTransaction) :
    (t.toXML).tagName = t._type.tag := rfl

theorem tagName_leaf (nm v : List Char) : (leaf nm v).tagName = nm := rfl

theorem tagName_elem (nm : List Char)
    (a : List (Option (List Char) × List Char × List Char)) (k : List Node) :
    (Node.elem nm a k).tagName = nm := rfl

theorem tagName_ite_elem (c : Prop) [Decidable c] (tag : List Char)
    (a1 a2 : List (Option (List Char) × List Char × List Char))
    (k1 k2 : List Node) :
    (if c then Node.elem tag a1 k1 else Node.elem tag a2 k2).tagName = tag := by
  split <;> rfl

theorem pmtInf_v2_no_batch_nodes (p : SepaPaymentInfo)
    (hv : getPainXMLVersion p._painFormat = 2) :
    hasChildNamed "BtchBookg".data p.toXML = false ∧
    hasChildNamed "NbOfTxs".data p.toXML = false ∧
    hasChildNamed "CtrlSum".data p.toXML = false := by
  refine ⟨?_, ?_, ?_⟩ <;>
  · cases hm : p.method <;>
      simp [SepaPaymentInfo.toXML, hm, hv, hasChildNamed, Node.kids,
        tagName_leaf, tagName_elem, tagName_ite_elem,
        SepaTransaction.toXML_tagName, List.any_map, Function.comp] <;>
      intro a ha <;>
      cases htt : a._type <;>
        simp [htt, TransactionTypes.tag]

theorem serializedHeader_eq (d : SepaDocument) :
    serializedHeader d = SepaGroupHeader.toXML (d.normalize).grpHdr := rfl

theorem serializedBatches_eq (d : SepaDocument) :
    serializedBatches d
      = ((d.normalize)._paymentInfo).map SepaPaymentInfo.toXML := rfl

/-- Claim C4: serializing a document of version family 3 (trailing two digits
of the format identifier, plus 1 for pain.008 formats) emits no batch-booking
or grouping element in the group header but emits `BtchBookg`, `NbOfTxs` and
`CtrlSum` inside each `PmtInf` block; a family-2 document emits `BtchBookg`
and `Grpg` in the group header and none of those three at batch level. -/
theorem C4_version_family_branching (d3 d2 : SepaDocument)
    (h3 : getPainXMLVersion d3._painFormat = 3)
    (hg3 : d3.grpHdr._painFormat = d3._painFormat)
    (hp3 : ∀ p ∈ d3._paymentInfo, p._painFormat = d3._painFormat)
    (h2 : getPainXMLVersion d2._painFormat = 2)
    (hg2 : d2.grpHdr._painFormat = d2._painFormat)
    (hp2 : ∀ p ∈ d2._paymentInfo, p._painFormat = d2._painFormat) :
    (hasChildNamed "BtchBookg".data (serializedHeader d3) = false ∧
     hasChildNamed "Grpg".data (serializedHeader d3) = false ∧
     ∀ b ∈ serializedBatches d3,
       hasChildNamed "BtchBookg".data b = true ∧
       hasChildNamed "NbOfTxs".data b = true ∧
       hasChildNamed "CtrlSum".data b = true) ∧
    (hasChildNamed "BtchBookg".data (serializedHeader d2) = true ∧
     hasChildNamed "Grpg".data (serializedHeader d2) = true ∧
     ∀ b ∈ serializedBatches d2,
       hasChildNamed "BtchBookg".data b = false ∧
       hasChildNamed "NbOfTxs".data b = false ∧
       hasChildNamed "CtrlSum".data b = false) := by
  have hgn3 : getPainXMLVersion (d3.normalize).grpHdr._painFormat = 3 := by
    rw [show (d3.normalize).grpHdr._painFormat = d3.grpHdr._painFormat from rfl,
      hg3, h3]
  have hgn2 : getPainXMLVersion (d2.normalize).grpHdr._painFormat = 2 := by
    rw [show (d2.normalize).grpHdr._painFormat = d2.grpHdr._painFormat from rfl,
      hg2, h2]
  constructor
  · obtain ⟨hb, hg⟩ := grpHdr_v3_no_batch_nodes (d3.normalize).grpHdr hgn3
    refine ⟨by rw [serializedHeader_eq]; exact hb,
      by rw [serializedHeader_eq]; exact hg, ?_⟩
    intro b hbmem
    rw [serializedBatches_eq] at hbmem
    obtain ⟨q, hq, rfl⟩ := List.mem_map.1 hbmem
    obtain ⟨q0, hq0, rfl⟩ := List.mem_map.1 hq
    exact pmtInf_v3_batch_nodes q0.normalize
      (by rw [show (q0.normalize)._painFormat = q0._painFormat from rfl,
        hp3 q0 hq0, h3])
  · obtain ⟨hb, hg⟩ := grpHdr_v2_batch_nodes (d2.normalize).grpHdr hgn2
    refine ⟨by rw [serializedHeader_eq]; exact hb,
      by rw [serializedHeader_eq]; exact hg, ?_⟩
    intro b hbmem
    rw [serializedBatches_eq] at hbmem
    obtain ⟨q, hq, rfl⟩ := List.mem_map.1 hbmem
    obtain ⟨q0, hq0, rfl⟩ := List.mem_map.1 hq
    exact pmtInf_v2_no_batch_nodes q0.normalize
      (by rw [show (q0.normalize)._painFormat = q0._painFormat from rfl,
        hp2 q0 hq0, h2])

/-- A family-3 document (pain.001.001.03) with one batch, for the C4 witness. -/
def docC4v3 : SepaDocument :=
  (SepaDocument.create
    { painFormat := some "pain.001.001.03".data, id := "M3".data,
      created := [], initiatorName := [] }).addPaymentInfo
    (SepaPaymentInfo.create "pain.001.001.03".data)

/-- A family-2 document (pain.001.001.02) with one batch, for the C4 witness. -/
def docC4v2 : SepaDocument :=
  (SepaDocument.create
    { painFormat := some "pain.001.001.02".data, id := "M2".data,
      created := [], initiatorName := [] }).addPaymentInfo
    (SepaPaymentInfo.create "pain.001.001.02".data)

/-- Witness for C4 at concrete documents with formats pain.001.001.03 and
pain.001.001.02, each holding one batch. -/
theorem C4_version_family_branching_witness :
    (hasChildNamed "BtchBookg".data (serializedHeader docC4v3) = false ∧
     hasChildNamed "Grpg".data (serializedHeader docC4v3) = false ∧
     ∀ b ∈ serializedBatches docC4v3,
       hasChildNamed "BtchBookg".data b = true ∧
       hasChildNamed "NbOfTxs".data b = true ∧
       hasChildNamed "CtrlSum".data b = true) ∧
    (hasChildNamed "BtchBookg".data (serializedHeader docC4v2) = true ∧
     hasChildNamed "Grpg".data (serializedHeader docC4v2) = true ∧
     ∀ b ∈ serializedBatches docC4v2,
       hasChildNamed "BtchBookg".data b = false ∧
       hasChildNamed "NbOfTxs".data b = false ∧
       hasChildNamed "CtrlSum".data b = false) :=
  C4_version_family_branching docC4v3 docC4v2
    (by decide) (by decide) (by decide) (by decide) (by decide) (by decide)
